import Mathlib

/-!
Shallow embedding of the AllenAct iTHOR task-sampling subsystem
(`plugins/ithor_plugin/ithor_task_samplers.py`: `ObjectNavTaskSampler`,
`ObjectManipTaskSampler`) and of the frozen-class metaclass guard
(`core/base_abstractions/experiment_config.py`: `FrozenClassVariables`).

Modelling conventions:

* Python's process-wide `random` generator is modelled by an explicit `Rng`
  state threaded through every operation.  The concrete generator is a
  linear-congruential stand-in: nothing depends on the exact stream, only
  on determinism and state-threading.  `random.shuffle` is `shuffle`
  (a permutation of the input driven by the `Rng`), `random.randint(0, n-1)`
  is `randBelow`, and `random.sample(xs, len(xs))` — a draw of the whole
  population without replacement — is a permutation as well, so it is also
  modelled by `shuffle`.
* The simulator environment (`IThorEnvironment` / `IThorArmEnvironment`) is
  an external collaborator (spec §6: interfaces only).  It is modelled by a
  `World` of deterministic maps from scene names to object-type lists and
  poses, plus the environment's current scene name held in the sampler
  state (`env`).  Calls made to the environment and warnings logged are
  recorded in an `Event` trace.
* Python exceptions are modelled by `PyError`.  A call returns its
  (possibly mutated) state together with an `Except` result: mutations made
  before a `raise` persist on the object, exactly as in Python.
* `scene_period` can hold an arbitrary Python value; `PyVal` covers the
  behaviourally distinct classes for this code: `pyNone` is `None`,
  `pyStr s` a string, `pyInt n` an int (`isinstance(·, int)` holds exactly
  for these; Python bools are ints and fall here too), `pyFloat n` a float
  of integral value `n.0` (the only floats that can compare `==`-equal to
  the int-valued `scene_counter`; a non-integral float compares unequal to
  every int and hence behaves exactly like `pyOther` in this code), and
  `pyOther` anything else (default object equality with an int is `False`).
* The samplers assume a non-empty `scenes` list (spec §3: "a non-empty
  ordered sequence"); with an empty list the Python code would raise
  `ZeroDivisionError`/`ValueError` inside `random`, which this embedding
  does not model — every theorem below either fixes a concrete non-empty
  list or carries non-emptiness via its hypotheses.
-/

namespace AllenAct

/-- Explicit stand-in for the process-wide `random` generator state. -/
structure Rng where
  val : Nat
deriving DecidableEq

/-- Advance the generator one step (linear-congruential stand-in). -/
def rngStep (r : Rng) : Rng :=
  ⟨(r.val * 1103515245 + 12345) % 2147483648⟩

/-- Seeding the generator (`utils.experiment_utils.set_seed`). -/
def seedRng (seed : Nat) : Rng :=
  ⟨seed % 2147483648⟩

/-- Draw a value in `[0, n)` (for `n > 0`) and advance the generator;
models `random.randint(0, n - 1)`. -/
def randBelow (r : Rng) (n : Nat) : Nat × Rng :=
  (r.val % max n 1, rngStep r)

/-- Selection-style shuffle: repeatedly extract a randomly chosen element.
The fuel argument starts at the list length, so the `none` fallback row is
never reached from `shuffle`. -/
def shuffleAux {α : Type} : Nat → Rng → List α → List α → List α × Rng
  | 0, r, _, acc => (acc.reverse, r)
  | n + 1, r, l, acc =>
    let jr := randBelow r l.length
    match l[jr.1]? with
    | some x => shuffleAux n jr.2 (l.eraseIdx jr.1) (x :: acc)
    | none => (acc.reverse ++ l, jr.2)

/-- Model of `random.shuffle` (and of `random.sample(xs, len(xs))`): a
permutation of the input, driven by and advancing the generator. -/
def shuffle {α : Type} (r : Rng) (l : List α) : List α × Rng :=
  shuffleAux l.length r l []

/-- The behaviourally distinct classes of Python values a `scene_period`
field can hold (see the header comment). -/
inductive PyVal where
  | pyNone
  | pyStr (s : String)
  | pyInt (n : Int)
  | pyFloat (n : Int)
  | pyOther
deriving DecidableEq

/-- Python `scene_period is None`. -/
def isPyNone : PyVal → Bool
  | .pyNone => true
  | _ => false

/-- Python `scene_period == "manual"`. -/
def isManual : PyVal → Bool
  | .pyStr s => decide (s = "manual")
  | _ => false

/-- Python `scene_counter == scene_period` for an int-valued counter:
true for an equal int or an equal integral-valued float, false for every
other value (`None`, strings, other objects). -/
def pyEqInt (c : Int) : PyVal → Bool
  | .pyInt n => decide (c = n)
  | .pyFloat n => decide (c = n)
  | _ => false

/-- Python `isinstance(scene_period, int)`. -/
def isInstInt : PyVal → Bool
  | .pyInt _ => true
  | _ => false

/-- Python exceptions raised by the modelled code. -/
inductive PyError where
  | notImplErr
  | indexErr
  | runtimeErr
deriving DecidableEq

instance exceptDecEq {ε α : Type} [DecidableEq ε] [DecidableEq α] :
    DecidableEq (Except ε α) := fun x y =>
  match x, y with
  | .ok a, .ok b =>
    if h : a = b then isTrue (by rw [h]) else isFalse (fun he => by cases he; exact h rfl)
  | .error a, .error b =>
    if h : a = b then isTrue (by rw [h]) else isFalse (fun he => by cases he; exact h rfl)
  | .ok _, .error _ => isFalse (fun he => by cases he)
  | .error _, .ok _ => isFalse (fun he => by cases he)

/-- Observable side effects: warnings logged and environment calls made. -/
inductive Event where
  | warnForceAdvance
  | warnNoObject (scene : String)
  | envCreate
  | envReset (scene : String)
  | dropHand
deriving DecidableEq

/-- The `task_info` dictionary built per task: `object_type` may be absent,
`start_pose` is always set, `start_arm_pose` only by the manipulation
sampler. -/
structure TaskInfo where
  objectType : Option String
  startPose : Nat
  startArmPose : Option Nat
deriving DecidableEq

/-- An `ObjectNavTask` / `ObjectManipTask`: holds the environment (whose
identifying datum here is its scene), and the task info.  Sensors, step
budget and action space are opaque pass-throughs and carry no information
for the verified properties, so they are omitted. -/
structure Task where
  scene : String
  taskInfo : TaskInfo
deriving DecidableEq

/-- State of an `ObjectNavTaskSampler` (the manipulation sampler shares all
of these fields; its extra held-object bookkeeping lives in `ManipState`).
`env` is the current scene name of the live environment, `none` before lazy
construction. -/
structure SamplerState where
  scenes : List String
  objectTypes : List String
  scenePeriod : PyVal
  sceneCounter : Int
  sceneOrder : List Nat
  sceneId : Nat
  maxTasks : Option Int
  resetTasks : Option Int
  seed : Option Nat
  env : Option String
  lastSampledTask : Option Task
  rng : Rng
deriving DecidableEq

/-- The external simulator, as deterministic maps (spec §6: interfaces
only): object types present per scene, and the pose collaborator calls. -/
structure World where
  sceneObjects : String → List String
  agentPose : String → Nat
  reachableAgentPose : String → List String → Nat
  armCoordinate : String → Nat

/-- `ObjectNavTaskSampler.reset` (lines 187-192): zero the counter, draw a
fresh shuffled permutation of `range(len(scenes))`, return to slot 0 and
restore the task budget. -/
def resetSampler (st : SamplerState) : SamplerState :=
  let p := shuffle st.rng (List.range st.scenes.length)
  { st with sceneCounter := 0, sceneOrder := p.1, sceneId := 0,
            maxTasks := st.resetTasks, rng := p.2 }

/-- `ObjectNavTaskSampler.set_seed` (lines 194-197): record the seed and,
when it is not `None`, reseed the process-wide generator. -/
def setSeed (st : SamplerState) (seed : Option Nat) : SamplerState :=
  match seed with
  | some s => { st with seed := some s, rng := seedRng s }
  | none => { st with seed := none }

/-- Constructor arguments relevant to sampling. -/
structure Config where
  scenes : List String
  objectTypes : List String
  scenePeriod : PyVal
  maxTasks : Option Int
deriving DecidableEq

/-- `ObjectNavTaskSampler.__init__` (lines 16-58): stores the
configuration, leaves `max_tasks` unset and `reset_tasks` at the requested
budget, then calls `set_seed(seed)` followed by `reset()`.  `ambient` is
the pre-existing process-wide generator state the constructor finds.  (In
Python `scene_counter`/`scene_order`/`scene_id` are initialised to `None`
placeholders that `reset()` immediately overwrites; the placeholders here
are `0`/`[]`/`0`.) -/
def mkSampler (ambient : Rng) (cfg : Config) (seed : Option Nat) : SamplerState :=
  let st0 : SamplerState := {
    scenes := cfg.scenes
    objectTypes := cfg.objectTypes
    scenePeriod := cfg.scenePeriod
    sceneCounter := 0
    sceneOrder := []
    sceneId := 0
    maxTasks := none
    resetTasks := cfg.maxTasks
    seed := none
    env := none
    lastSampledTask := none
    rng := ambient }
  resetSampler (setSeed st0 seed)

/-- Python `max_tasks is not None and max_tasks <= 0` (line 144). -/
def exhausted : Option Int → Bool
  | some k => decide (k ≤ 0)
  | none => false

/-- The budget decrement of `sample_scene` (lines 138-139). -/
def decrMaxTasks : Option Int → Option Int
  | none => none
  | some k => some (k - 1)

/-- The `force_advance_scene` block of `sample_scene` (lines 103-112):
warn when the period is not `"manual"`, advance one slot modulo the scene
count and reshuffle the permutation on wrap-around. -/
def forceAdvanceStage (fa : Bool) (st : SamplerState) : SamplerState × List Event :=
  if fa then
    let evs := if isManual st.scenePeriod then [] else [Event.warnForceAdvance]
    let sid := (1 + st.sceneId) % st.scenes.length
    if sid = 0 then
      let p := shuffle st.rng st.sceneOrder
      ({ st with sceneId := sid, sceneOrder := p.1, rng := p.2 }, evs)
    else
      ({ st with sceneId := sid }, evs)
  else
    (st, [])

/-- The policy dispatch of `sample_scene` (lines 114-136), in Python's
evaluation order: `None` draws a uniformly random index, `"manual"` leaves
everything alone, a period `==`-equal to the counter advances one slot
(reshuffling and wrapping from the last slot) and resets the counter to 1,
any other int increments the counter, and anything else raises
`NotImplementedError`. -/
def rotationPolicy (st : SamplerState) : Except PyError SamplerState :=
  if isPyNone st.scenePeriod then
    let p := randBelow st.rng st.scenes.length
    .ok { st with sceneId := p.1, rng := p.2 }
  else if isManual st.scenePeriod then
    .ok st
  else if pyEqInt st.sceneCounter st.scenePeriod then
    if (st.sceneId : Int) = (st.sceneOrder.length : Int) - 1 then
      let p := shuffle st.rng st.sceneOrder
      .ok { st with sceneOrder := p.1, rng := p.2, sceneId := 0, sceneCounter := 1 }
    else
      .ok { st with sceneId := st.sceneId + 1, sceneCounter := 1 }
  else if isInstInt st.scenePeriod then
    .ok { st with sceneCounter := st.sceneCounter + 1 }
  else
    .error PyError.notImplErr

/-- `ObjectNavTaskSampler.sample_scene` (lines 102-141), identical in
`ObjectManipTaskSampler` (lines 289-328): force-advance block, policy
dispatch, budget decrement, then return
`scenes[int(scene_order[scene_id])]`.  A raise from the policy dispatch
aborts before the decrement; out-of-range indexing aborts after it. -/
def sample_scene (fa : Bool) (st : SamplerState) :
    SamplerState × List Event × Except PyError String :=
  let fwd := forceAdvanceStage fa st
  match rotationPolicy fwd.1 with
  | .error e => (fwd.1, fwd.2, .error e)
  | .ok st2 =>
    let st3 := { st2 with maxTasks := decrMaxTasks st2.maxTasks }
    match st3.sceneOrder[st3.sceneId]? with
    | none => (st3, fwd.2, .error PyError.indexErr)
    | some j =>
      match st3.scenes[j]? with
      | none => (st3, fwd.2, .error PyError.indexErr)
      | some sc => (st3, fwd.2, .ok sc)

/-- Python's `s.replace("_physics", "")` specialised to the pattern used on
scene names: remove every non-overlapping occurrence of `_physics`,
scanning left to right.  Fuel-driven so it reduces by kernel computation. -/
def stripCharsAux : Nat → List Char → List Char
  | 0, l => l
  | _ + 1, [] => []
  | fuel + 1, c :: rest =>
    if List.take 8 (c :: rest) = ['_', 'p', 'h', 'y', 's', 'i', 'c', 's'] then
      stripCharsAux fuel (List.drop 8 (c :: rest))
    else
      c :: stripCharsAux fuel rest

/-- Scene-name normalisation for the reset-skip comparison (lines
150-152). -/
def stripPhysics (s : String) : String :=
  String.mk (stripCharsAux s.data.length s.data)

/-- The environment block of `ObjectNavTaskSampler.next_task` (lines
149-156): with a live environment, reset it to the sampled scene exactly
when the `_physics`-normalised names differ; otherwise lazily construct an
environment and reset it to the scene. -/
def envStage (scene : String) (st : SamplerState) : SamplerState × List Event :=
  match st.env with
  | some current =>
    if stripPhysics scene ≠ stripPhysics current then
      ({ st with env := some scene }, [Event.envReset scene])
    else
      (st, [])
  | none =>
    ({ st with env := some scene }, [Event.envCreate, Event.envReset scene])

/-- The environment block of `ObjectManipTaskSampler.next_task` (lines
336-347): the normalised comparison is commented out in the source, so a
live environment is reset unconditionally. -/
def manipEnvStage (scene : String) (st : SamplerState) : SamplerState × List Event :=
  match st.env with
  | some _ => ({ st with env := some scene }, [Event.envReset scene])
  | none => ({ st with env := some scene }, [Event.envCreate, Event.envReset scene])

/-- The object-type selection loop (lines 160-168): walk the target types
in a freshly sampled random order and pick the first one present in the
scene. -/
def selectObjectType (r : Rng) (objectTypes presentTypes : List String) :
    Option String × Rng :=
  let p := shuffle r objectTypes
  (p.1.find? (fun ot => decide (ot ∈ presentTypes)), p.2)

/-- The task-building tail of `ObjectNavTaskSampler.next_task` (lines
158-185): randomize the agent pose, select a target object type (warning
when none of the requested types is present), and construct the task,
recording it in `_last_sampled_task`. -/
def buildNavTask (w : World) (scene : String) (st : SamplerState) :
    SamplerState × List Event × Task :=
  let pose := w.agentPose scene
  let sel := selectObjectType st.rng st.objectTypes (w.sceneObjects scene)
  let warn : List Event :=
    match sel.1 with
    | none => [Event.warnNoObject scene]
    | some _ => []
  let task : Task :=
    { scene := scene
      taskInfo := { objectType := sel.1, startPose := pose, startArmPose := none } }
  ({ st with rng := sel.2, lastSampledTask := some task }, warn, task)

/-- `ObjectNavTaskSampler.next_task` (lines 143-185): return nothing when
the budget is exhausted, otherwise sample a scene (propagating its raise),
run the environment block and build the task. -/
def next_task (w : World) (fa : Bool) (st : SamplerState) :
    SamplerState × List Event × Except PyError (Option Task) :=
  if exhausted st.maxTasks then (st, [], .ok none)
  else
    match sample_scene fa st with
    | (st1, evs1, .error e) => (st1, evs1, .error e)
    | (st1, evs1, .ok scene) =>
      let env2 := envStage scene st1
      let built := buildNavTask w scene env2.1
      (built.1, evs1 ++ env2.2 ++ built.2.1, .ok (some built.2.2))

/-- State of an `ObjectManipTaskSampler`: the shared sampler fields plus
the environment's held-object bookkeeping (`env._objects_in_hand`). -/
structure ManipState where
  base : SamplerState
  objectsInHand : List String
deriving DecidableEq

/-- The task-building tail of `ObjectManipTaskSampler.next_task` (lines
350-390): the arm pose drawn first is overwritten by the coordinate
re-read after agent placement; the agent is placed by the
reachability-constrained collaborator; object selection is as in the
navigation sampler, and the task info additionally carries the arm pose. -/
def buildManipTask (w : World) (scene : String) (st : SamplerState) :
    SamplerState × List Event × Task :=
  let agentPose := w.reachableAgentPose scene st.objectTypes
  let armPose := w.armCoordinate scene
  let sel := selectObjectType st.rng st.objectTypes (w.sceneObjects scene)
  let warn : List Event :=
    match sel.1 with
    | none => [Event.warnNoObject scene]
    | some _ => []
  let task : Task :=
    { scene := scene
      taskInfo := { objectType := sel.1, startPose := agentPose,
                    startArmPose := some armPose } }
  ({ st with rng := sel.2, lastSampledTask := some task }, warn, task)

/-- `ObjectManipTaskSampler.next_task` (lines 330-390): budget check,
scene sampling, unconditional environment reset, forced drop of any held
object (clearing the held-object bookkeeping), then task construction. -/
def manip_next_task (w : World) (fa : Bool) (ms : ManipState) :
    ManipState × List Event × Except PyError (Option Task) :=
  if exhausted ms.base.maxTasks then (ms, [], .ok none)
  else
    match sample_scene fa ms.base with
    | (st1, evs1, .error e) => ({ ms with base := st1 }, evs1, .error e)
    | (st1, evs1, .ok scene) =>
      let env2 := manipEnvStage scene st1
      let built := buildManipTask w scene env2.1
      ({ base := built.1, objectsInHand := [] },
       evs1 ++ env2.2 ++ [Event.dropHand] ++ built.2.1, .ok (some built.2.2))

/-- The sampler state after one un-forced `next_task` call. -/
def stepState (w : World) (st : SamplerState) : SamplerState :=
  (next_task w false st).1

/-- The sampler state after `n` un-forced `next_task` calls. -/
def iterNext (w : World) : Nat → SamplerState → SamplerState
  | 0, st => st
  | n + 1, st => stepState w (iterNext w n st)

/-- The sequence of `next_task` results over a given sequence of
`force_advance_scene` flags. -/
def runTrace (w : World) : SamplerState → List Bool → List (Except PyError (Option Task))
  | _, [] => []
  | st, fa :: rest =>
    let r := next_task w fa st
    r.2.2 :: runTrace w r.1 rest

/-- The value of the `length` property (lines 69-77): `+infinity` when the
budget is unbounded, otherwise the remaining budget. -/
inductive LengthVal where
  | inf
  | fin (n : Int)
deriving DecidableEq

/-- `ObjectNavTaskSampler.length`. -/
def samplerLength (st : SamplerState) : LengthVal :=
  match st.maxTasks with
  | none => .inf
  | some m => .fin m

/-- Python `attr.startswith(pre)`, over character lists so it reduces by
kernel computation. -/
def startsWithChars : List Char → List Char → Bool
  | [], _ => true
  | _ :: _, [] => false
  | p :: ps, c :: cs => p = c && startsWithChars ps cs

/-- `FrozenClassVariables.__setattr__` (experiment_config.py lines 21-35):
invoked when assigning an attribute on a class whose metaclass this is
(`ExperimentConfig` and every subclass), where `isinstance(cls, type)` is
true; raises `RuntimeError` unless the attribute is `__abstractmethods__`
or starts with `_abc_`, in which case the default assignment runs.  The
`isTypeObj` flag carries the `isinstance(cls, type)` test verbatim. -/
def frozenClassSetattr (isTypeObj : Bool) (attr : String) : Except PyError Unit :=
  if isTypeObj = true ∧ attr ≠ "__abstractmethods__" ∧
      startsWithChars "_abc_".data attr.data = false then
    .error PyError.runtimeErr
  else
    .ok ()

/-- Assigning an attribute on an instance of `ExperimentConfig` does not go
through the metaclass `__setattr__` at all: Python dispatches it to the
default `object.__setattr__`, which succeeds. -/
def instanceSetattr (_attr : String) : Except PyError Unit :=
  .ok ()

/-! ## Concrete instances used by witnesses and counterexamples -/

/-- A concrete simulator world: every scene holds a `Cup`. -/
def wEx : World where
  sceneObjects := fun _ => ["Cup"]
  agentPose := fun _ => 7
  reachableAgentPose := fun _ _ => 3
  armCoordinate := fun _ => 9

/-- A world in which no scene contains any object at all. -/
def wNone : World where
  sceneObjects := fun _ => []
  agentPose := fun _ => 7
  reachableAgentPose := fun _ _ => 3
  armCoordinate := fun _ => 9

/-- A concrete configuration with a budget of one task. -/
def cfgEx : Config where
  scenes := ["A", "B"]
  objectTypes := ["Cup"]
  scenePeriod := .pyNone
  maxTasks := some 1

/-- The sampler built from `cfgEx` with seed 0. -/
def stEx : SamplerState := mkSampler ⟨0⟩ cfgEx (some 0)

/-- `stEx` after one (successful) `next_task` call: its budget is spent. -/
def stEx1 : SamplerState := (next_task wEx false stEx).1

/-- A freshly reset sampler whose `scene_period` is the Python float `0.0`. -/
def floatSt : SamplerState where
  scenes := ["A", "B"]
  objectTypes := ["Cup"]
  scenePeriod := .pyFloat 0
  sceneCounter := 0
  sceneOrder := [0, 1]
  sceneId := 0
  maxTasks := some 5
  resetTasks := some 5
  seed := none
  env := none
  lastSampledTask := none
  rng := ⟨0⟩

/-- The same sampler with the unrecognized string `"weekly"` as period. -/
def weeklySt : SamplerState := { floatSt with scenePeriod := .pyStr "weekly" }

/-- A manual-period sampler whose live environment sits in the physics
variant of its single scene. -/
def manualSt : SamplerState where
  scenes := ["Kitchen1"]
  objectTypes := ["Cup"]
  scenePeriod := .pyStr "manual"
  sceneCounter := 0
  sceneOrder := [0]
  sceneId := 0
  maxTasks := none
  resetTasks := none
  seed := none
  env := some "Kitchen1_physics"
  lastSampledTask := none
  rng := ⟨0⟩

/-- A freshly reset unbounded sampler with integer period 1 over two
scenes. -/
def periodSt : SamplerState where
  scenes := ["A", "B"]
  objectTypes := ["Cup"]
  scenePeriod := .pyInt 1
  sceneCounter := 0
  sceneOrder := [0, 1]
  sceneId := 0
  maxTasks := none
  resetTasks := none
  seed := none
  env := none
  lastSampledTask := none
  rng := ⟨0⟩

/-! ## Permutation facts about `shuffle` -/

lemma cons_eraseIdx_perm {α : Type} :
    ∀ (l : List α) (j : Nat) (x : α), l[j]? = some x →
      (x :: l.eraseIdx j).Perm l := by
  intro l
  induction l with
  | nil => intro j x h; simp at h
  | cons a tl ih =>
    intro j x h
    cases j with
    | zero =>
      simp at h
      subst h
      simp [List.eraseIdx]
    | succ j =>
      simp at h
      have hp := ih j x h
      simpa [List.eraseIdx] using (List.Perm.swap a x _).trans (hp.cons a)

lemma shuffleAux_perm {α : Type} :
    ∀ (n : Nat) (r : Rng) (l acc : List α), l.length = n →
      ((shuffleAux n r l acc).1).Perm (acc.reverse ++ l) := by
  intro n
  induction n with
  | zero =>
    intro r l acc h
    have : l = [] := List.length_eq_zero.mp h
    subst this
    simp [shuffleAux]
  | succ n ih =>
    intro r l acc h
    have hl : 0 < l.length := by omega
    have hj : (randBelow r l.length).1 < l.length := by
      have hmax : max l.length 1 = l.length := Nat.max_eq_left hl
      simpa [randBelow, hmax] using Nat.mod_lt r.val (by omega)
    have hx : l[(randBelow r l.length).1]? = some l[(randBelow r l.length).1] :=
      List.getElem?_eq_getElem hj
    have hlen : (l.eraseIdx (randBelow r l.length).1).length = n := by
      have := List.length_eraseIdx_add_one hj
      omega
    have step := ih (randBelow r l.length).2 (l.eraseIdx (randBelow r l.length).1)
      (l[(randBelow r l.length).1] :: acc) hlen
    have hperm := cons_eraseIdx_perm l (randBelow r l.length).1 _ hx
    have hstep : (shuffleAux (n + 1) r l acc).1 =
        (shuffleAux n (randBelow r l.length).2
          (l.eraseIdx (randBelow r l.length).1)
          (l[(randBelow r l.length).1] :: acc)).1 := by
      rw [shuffleAux]
      simp only [hx]
    rw [hstep]
    refine step.trans ?_
    rw [List.reverse_cons, List.append_assoc]
    exact hperm.append_left acc.reverse

lemma shuffle_perm {α : Type} (r : Rng) (l : List α) :
    ((shuffle r l).1).Perm l := by
  simpa using shuffleAux_perm l.length r l [] rfl

lemma shuffle_length {α : Type} (r : Rng) (l : List α) :
    ((shuffle r l).1).length = l.length :=
  (shuffle_perm r l).length_eq

lemma shuffle_mem {α : Type} {r : Rng} {l : List α} {x : α}
    (h : x ∈ (shuffle r l).1) : x ∈ l :=
  (shuffle_perm r l).mem_iff.mp h

/-! ## Which fields each stage leaves untouched -/

lemma forceAdvance_pres (fa : Bool) (st : SamplerState) :
    ((forceAdvanceStage fa st).1).scenes = st.scenes ∧
    ((forceAdvanceStage fa st).1).objectTypes = st.objectTypes ∧
    ((forceAdvanceStage fa st).1).scenePeriod = st.scenePeriod ∧
    ((forceAdvanceStage fa st).1).sceneCounter = st.sceneCounter ∧
    ((forceAdvanceStage fa st).1).maxTasks = st.maxTasks ∧
    ((forceAdvanceStage fa st).1).resetTasks = st.resetTasks ∧
    ((forceAdvanceStage fa st).1).seed = st.seed ∧
    ((forceAdvanceStage fa st).1).env = st.env ∧
    ((forceAdvanceStage fa st).1).lastSampledTask = st.lastSampledTask := by
  unfold forceAdvanceStage
  split_ifs <;> simp [apply_ite]

lemma forceAdvance_events (fa : Bool) (st : SamplerState) :
    ∀ e ∈ (forceAdvanceStage fa st).2, e = Event.warnForceAdvance := by
  unfold forceAdvanceStage
  split_ifs <;> simp [apply_ite]

lemma forceAdvance_false (st : SamplerState) :
    forceAdvanceStage false st = (st, []) := rfl

lemma rotationPolicy_pres {st st2 : SamplerState}
    (h : rotationPolicy st = .ok st2) :
    st2.scenes = st.scenes ∧ st2.objectTypes = st.objectTypes ∧
    st2.scenePeriod = st.scenePeriod ∧ st2.maxTasks = st.maxTasks ∧
    st2.resetTasks = st.resetTasks ∧ st2.seed = st.seed ∧
    st2.env = st.env ∧ st2.lastSampledTask = st.lastSampledTask := by
  unfold rotationPolicy at h
  split at h
  · cases h; simp
  · split at h
    · cases h; simp
    · split at h
      · split at h
        · cases h; simp
        · cases h; simp
      · split at h
        · cases h; simp
        · cases h

lemma rotationPolicy_error {st : SamplerState} {e : PyError}
    (h : rotationPolicy st = .error e) : e = PyError.notImplErr := by
  unfold rotationPolicy at h
  split_ifs at h <;> (try cases h) <;> rfl

lemma sample_scene_fst_err {st : SamplerState} {e : PyError} (fa : Bool)
    (hrot : rotationPolicy (forceAdvanceStage fa st).1 = .error e) :
    sample_scene fa st =
      ((forceAdvanceStage fa st).1, (forceAdvanceStage fa st).2, .error e) := by
  simp [sample_scene, hrot]

lemma sample_scene_fst_ok {st st2 : SamplerState} (fa : Bool)
    (hrot : rotationPolicy (forceAdvanceStage fa st).1 = .ok st2) :
    (sample_scene fa st).1 = { st2 with maxTasks := decrMaxTasks st2.maxTasks } := by
  simp only [sample_scene, hrot]
  rcases h1 : st2.sceneOrder[st2.sceneId]? with _ | j
  · simp [h1]
  · rcases h2 : st2.scenes[j]? with _ | sc <;> simp [h1, h2]

lemma sample_scene_result_ok {st st2 : SamplerState} {j : Nat} {sc : String}
    (fa : Bool) (hrot : rotationPolicy (forceAdvanceStage fa st).1 = .ok st2)
    (h1 : st2.sceneOrder[st2.sceneId]? = some j) (h2 : st2.scenes[j]? = some sc) :
    sample_scene fa st =
      ({ st2 with maxTasks := decrMaxTasks st2.maxTasks },
       (forceAdvanceStage fa st).2, .ok sc) := by
  simp [sample_scene, hrot, h1, h2]

lemma sample_scene_snd (fa : Bool) (st : SamplerState) :
    (sample_scene fa st).2.1 = (forceAdvanceStage fa st).2 := by
  cases hrot : rotationPolicy (forceAdvanceStage fa st).1 with
  | error e => simp [sample_scene, hrot]
  | ok st2 =>
    simp only [sample_scene, hrot]
    rcases h1 : st2.sceneOrder[st2.sceneId]? with _ | j
    · simp [h1]
    · rcases h2 : st2.scenes[j]? with _ | sc <;> simp [h1, h2]

lemma sample_scene_pres (fa : Bool) (st : SamplerState) :
    ((sample_scene fa st).1).scenes = st.scenes ∧
    ((sample_scene fa st).1).objectTypes = st.objectTypes ∧
    ((sample_scene fa st).1).scenePeriod = st.scenePeriod ∧
    ((sample_scene fa st).1).resetTasks = st.resetTasks ∧
    ((sample_scene fa st).1).seed = st.seed ∧
    ((sample_scene fa st).1).env = st.env ∧
    ((sample_scene fa st).1).lastSampledTask = st.lastSampledTask := by
  obtain ⟨h1, h2, h3, _, _, h6, h7, h8, h9⟩ := forceAdvance_pres fa st
  cases hrot : rotationPolicy (forceAdvanceStage fa st).1 with
  | error e =>
    rw [sample_scene_fst_err fa hrot]
    exact ⟨h1, h2, h3, h6, h7, h8, h9⟩
  | ok st2 =>
    obtain ⟨g1, g2, g3, _, g5, g6, g7, g8⟩ := rotationPolicy_pres hrot
    rw [sample_scene_fst_ok fa hrot]
    exact ⟨g1.trans h1, g2.trans h2, g3.trans h3, g5.trans h6,
      g6.trans h7, g7.trans h8, g8.trans h9⟩

lemma sample_scene_events (fa : Bool) (st : SamplerState) :
    ∀ e ∈ (sample_scene fa st).2.1, e = Event.warnForceAdvance := by
  rw [sample_scene_snd fa st]
  exact forceAdvance_events fa st

lemma envStage_pres (sc : String) (st : SamplerState) :
    ((envStage sc st).1).scenes = st.scenes ∧
    ((envStage sc st).1).objectTypes = st.objectTypes ∧
    ((envStage sc st).1).scenePeriod = st.scenePeriod ∧
    ((envStage sc st).1).sceneCounter = st.sceneCounter ∧
    ((envStage sc st).1).sceneOrder = st.sceneOrder ∧
    ((envStage sc st).1).sceneId = st.sceneId ∧
    ((envStage sc st).1).maxTasks = st.maxTasks ∧
    ((envStage sc st).1).resetTasks = st.resetTasks ∧
    ((envStage sc st).1).rng = st.rng ∧
    ((envStage sc st).1).lastSampledTask = st.lastSampledTask := by
  unfold envStage
  split <;> (try split) <;> simp

lemma manipEnvStage_pres (sc : String) (st : SamplerState) :
    ((manipEnvStage sc st).1).scenes = st.scenes ∧
    ((manipEnvStage sc st).1).objectTypes = st.objectTypes ∧
    ((manipEnvStage sc st).1).scenePeriod = st.scenePeriod ∧
    ((manipEnvStage sc st).1).sceneCounter = st.sceneCounter ∧
    ((manipEnvStage sc st).1).sceneOrder = st.sceneOrder ∧
    ((manipEnvStage sc st).1).sceneId = st.sceneId ∧
    ((manipEnvStage sc st).1).maxTasks = st.maxTasks ∧
    ((manipEnvStage sc st).1).resetTasks = st.resetTasks ∧
    ((manipEnvStage sc st).1).rng = st.rng := by
  unfold manipEnvStage
  split <;> simp

lemma buildNavTask_pres (w : World) (sc : String) (st : SamplerState) :
    ((buildNavTask w sc st).1).scenes = st.scenes ∧
    ((buildNavTask w sc st).1).objectTypes = st.objectTypes ∧
    ((buildNavTask w sc st).1).scenePeriod = st.scenePeriod ∧
    ((buildNavTask w sc st).1).sceneCounter = st.sceneCounter ∧
    ((buildNavTask w sc st).1).sceneOrder = st.sceneOrder ∧
    ((buildNavTask w sc st).1).sceneId = st.sceneId ∧
    ((buildNavTask w sc st).1).maxTasks = st.maxTasks ∧
    ((buildNavTask w sc st).1).resetTasks = st.resetTasks ∧
    ((buildNavTask w sc st).1).env = st.env := by
  unfold buildNavTask
  simp

/-! ## Well-formed sampler states -/

/-- A `scene_period` value the rotation policy recognises. -/
def ValidPeriod (p : PyVal) : Prop :=
  p = .pyNone ∨ p = .pyStr "manual" ∨ ∃ n, p = .pyInt n

/-- The state invariant every correctly configured sampler maintains:
non-empty scene pool, a scene-order permutation indexing into it, a slot
index in range, and a recognised rotation policy. -/
structure WF (st : SamplerState) : Prop where
  scenesNe : st.scenes ≠ []
  orderLen : st.sceneOrder.length = st.scenes.length
  orderMem : ∀ x ∈ st.sceneOrder, x < st.scenes.length
  idLt : st.sceneId < st.scenes.length
  period : ValidPeriod st.scenePeriod

lemma index_ok {order : List Nat} {scenes : List String} {i : Nat}
    (hlen : order.length = scenes.length)
    (hmem : ∀ x ∈ order, x < scenes.length) (hi : i < scenes.length) :
    ∃ j sc, order[i]? = some j ∧ scenes[j]? = some sc := by
  have hi2 : i < order.length := by omega
  have h1 : order[i]? = some order[i] := List.getElem?_eq_getElem hi2
  have hjlt : order[i] < scenes.length := hmem _ (List.getElem_mem hi2)
  exact ⟨order[i], scenes[order[i]], h1, List.getElem?_eq_getElem hjlt⟩

lemma forceAdvance_true_id (st : SamplerState) :
    ((forceAdvanceStage true st).1).sceneId =
      (1 + st.sceneId) % st.scenes.length := by
  by_cases hz : (1 + st.sceneId) % st.scenes.length = 0 <;>
    by_cases hm : isManual st.scenePeriod = true <;>
    simp [forceAdvanceStage, hz, hm]

lemma forceAdvance_true_order (st : SamplerState) :
    ((forceAdvanceStage true st).1).sceneOrder =
      if (1 + st.sceneId) % st.scenes.length = 0 then
        (shuffle st.rng st.sceneOrder).1
      else st.sceneOrder := by
  by_cases hz : (1 + st.sceneId) % st.scenes.length = 0 <;>
    by_cases hm : isManual st.scenePeriod = true <;>
    simp [forceAdvanceStage, hz, hm]

lemma forceAdvance_wf {st : SamplerState} (fa : Bool) (h : WF st) :
    WF (forceAdvanceStage fa st).1 := by
  cases fa with
  | false => simpa [forceAdvance_false] using h
  | true =>
    obtain ⟨f1, f2, f3, f4, f5, f6, f7, f8, f9⟩ := forceAdvance_pres true st
    have hpos : 0 < st.scenes.length := List.length_pos.mpr h.scenesNe
    refine ⟨?_, ?_, ?_, ?_, ?_⟩
    · rw [f1]; exact h.scenesNe
    · rw [forceAdvance_true_order, f1]
      split_ifs
      · simpa [shuffle_length] using h.orderLen
      · exact h.orderLen
    · rw [forceAdvance_true_order, f1]
      split_ifs
      · intro x hx
        exact h.orderMem x (shuffle_mem hx)
      · exact h.orderMem
    · rw [forceAdvance_true_id, f1]
      exact Nat.mod_lt _ hpos
    · rw [f3]; exact h.period

lemma rotationPolicy_wf {st : SamplerState} (h : WF st) :
    ∃ st2, rotationPolicy st = .ok st2 ∧ WF st2 := by
  have hpos : 0 < st.scenes.length := List.length_pos.mpr h.scenesNe
  rcases h.period with hp | hp | ⟨n, hp⟩
  · have heq : rotationPolicy st = .ok { st with sceneId := (randBelow st.rng st.scenes.length).1, rng := (randBelow st.rng st.scenes.length).2 } := by
      simp [rotationPolicy, hp, isPyNone]
    refine ⟨_, heq, ?_⟩
    refine ⟨h.scenesNe, h.orderLen, h.orderMem, ?_, h.period⟩
    show (randBelow st.rng st.scenes.length).1 < st.scenes.length
    have hmax : max st.scenes.length 1 = st.scenes.length := Nat.max_eq_left hpos
    simpa [randBelow, hmax] using Nat.mod_lt st.rng.val (by omega)
  · exact ⟨st, by simp [rotationPolicy, hp, isPyNone, isManual], h⟩
  · by_cases hc : st.sceneCounter = n
    · by_cases hlast : (st.sceneId : Int) = (st.sceneOrder.length : Int) - 1
      · have heq : rotationPolicy st = .ok { st with sceneOrder := (shuffle st.rng st.sceneOrder).1, rng := (shuffle st.rng st.sceneOrder).2, sceneId := 0, sceneCounter := 1 } := by
          simp [rotationPolicy, hp, isPyNone, isManual, pyEqInt, hc, hlast]
        refine ⟨_, heq, ?_⟩
        exact ⟨h.scenesNe, (shuffle_length _ _).trans h.orderLen,
          fun x hx => h.orderMem x (shuffle_mem hx), hpos, h.period⟩
      · have heq : rotationPolicy st = .ok { st with sceneId := st.sceneId + 1, sceneCounter := 1 } := by
          simp [rotationPolicy, hp, isPyNone, isManual, pyEqInt, hc, hlast]
        refine ⟨_, heq, ?_⟩
        refine ⟨h.scenesNe, h.orderLen, h.orderMem, ?_, h.period⟩
        have hidlt := h.idLt
        have horder := h.orderLen
        show st.sceneId + 1 < st.scenes.length
        omega
    · have heq : rotationPolicy st = .ok { st with sceneCounter := st.sceneCounter + 1 } := by
        simp [rotationPolicy, hp, isPyNone, isManual, pyEqInt, isInstInt, hc]
      refine ⟨_, heq, ?_⟩
      exact ⟨h.scenesNe, h.orderLen, h.orderMem, h.idLt, h.period⟩

lemma sample_scene_wf {st : SamplerState} (fa : Bool) (h : WF st) :
    ∃ st1 evs sc, sample_scene fa st = (st1, evs, .ok sc) ∧ WF st1 ∧
      st1.maxTasks = decrMaxTasks st.maxTasks ∧
      st1.resetTasks = st.resetTasks ∧ st1.scenes = st.scenes ∧
      st1.scenePeriod = st.scenePeriod ∧ st1.objectTypes = st.objectTypes ∧
      st1.env = st.env ∧ st1.lastSampledTask = st.lastSampledTask := by
  obtain ⟨f1, f2, f3, f4, f5, f6, f7, f8, f9⟩ := forceAdvance_pres fa st
  have hwf1 := forceAdvance_wf fa h
  obtain ⟨st2, hrot, hwf2⟩ := rotationPolicy_wf hwf1
  obtain ⟨g1, g2, g3, g4, g5, g6, g7, g8⟩ := rotationPolicy_pres hrot
  obtain ⟨j, sc, h1, h2⟩ := index_ok hwf2.orderLen hwf2.orderMem hwf2.idLt
  refine ⟨_, _, sc, sample_scene_result_ok fa hrot h1 h2, ?_, ?_, ?_, ?_, ?_, ?_, ?_, ?_⟩
  · exact ⟨by simpa using hwf2.scenesNe, by simpa using hwf2.orderLen,
      by simpa using hwf2.orderMem, by simpa using hwf2.idLt,
      by simpa using hwf2.period⟩
  · simpa using congrArg decrMaxTasks (g4.trans f5)
  · simpa using g5.trans f6
  · simpa using g1.trans f1
  · simpa using g3.trans f3
  · simpa using g2.trans f2
  · simpa using g7.trans f8
  · simpa using g8.trans f9

lemma envStage_events_some {st : SamplerState} {es : String} (sc : String)
    (h : st.env = some es) :
    (envStage sc st).2 =
      if stripPhysics sc ≠ stripPhysics es then [Event.envReset sc] else [] := by
  simp only [envStage, h]
  split_ifs <;> rfl

lemma envStage_events_shape (sc : String) (st : SamplerState) :
    ∀ e ∈ (envStage sc st).2, e = Event.envReset sc ∨ e = Event.envCreate := by
  intro e he
  rcases henv : st.env with _ | cur
  · simp [envStage, henv] at he
    tauto
  · by_cases hc : stripPhysics sc ≠ stripPhysics cur <;>
      simp [envStage, henv, hc] at he
    tauto

lemma manipEnvStage_events_some {st : SamplerState} {es : String} (sc : String)
    (h : st.env = some es) :
    (manipEnvStage sc st).2 = [Event.envReset sc] := by
  simp [manipEnvStage, h]

lemma buildNavTask_objectType (w : World) (sc : String) (st : SamplerState) :
    (buildNavTask w sc st).2.2.taskInfo.objectType =
      (selectObjectType st.rng st.objectTypes (w.sceneObjects sc)).1 := by
  simp [buildNavTask]

lemma buildNavTask_startPose (w : World) (sc : String) (st : SamplerState) :
    (buildNavTask w sc st).2.2.taskInfo.startPose = w.agentPose sc := by
  simp [buildNavTask]

lemma buildNavTask_warn (w : World) (sc : String) (st : SamplerState) :
    (buildNavTask w sc st).2.1 =
      if (buildNavTask w sc st).2.2.taskInfo.objectType = none then
        [Event.warnNoObject sc]
      else [] := by
  rcases hsel : (selectObjectType st.rng st.objectTypes (w.sceneObjects sc)).1
    with _ | ot <;> simp [buildNavTask, hsel]

lemma manipEnvStage_events_shape (sc : String) (st : SamplerState) :
    ∀ e ∈ (manipEnvStage sc st).2, e = Event.envReset sc ∨ e = Event.envCreate := by
  intro e he
  rcases henv : st.env with _ | cur <;> simp [manipEnvStage, henv] at he <;> tauto

lemma buildManipTask_objectType (w : World) (sc : String) (st : SamplerState) :
    (buildManipTask w sc st).2.2.taskInfo.objectType =
      (selectObjectType st.rng st.objectTypes (w.sceneObjects sc)).1 := by
  simp [buildManipTask]

lemma buildManipTask_startPose (w : World) (sc : String) (st : SamplerState) :
    (buildManipTask w sc st).2.2.taskInfo.startPose =
      w.reachableAgentPose sc st.objectTypes := by
  simp [buildManipTask]

lemma buildManipTask_warn (w : World) (sc : String) (st : SamplerState) :
    (buildManipTask w sc st).2.1 =
      if (buildManipTask w sc st).2.2.taskInfo.objectType = none then
        [Event.warnNoObject sc]
      else [] := by
  rcases hsel : (selectObjectType st.rng st.objectTypes (w.sceneObjects sc)).1
    with _ | ot <;> simp [buildManipTask, hsel]

/-! ## Branch equations for `next_task` -/

lemma next_task_exhausted {st : SamplerState} (w : World) (fa : Bool)
    (h : exhausted st.maxTasks = true) :
    next_task w fa st = (st, [], .ok none) := by
  simp [next_task, h]

lemma manip_next_task_exhausted {ms : ManipState} (w : World) (fa : Bool)
    (h : exhausted ms.base.maxTasks = true) :
    manip_next_task w fa ms = (ms, [], .ok none) := by
  simp [manip_next_task, h]

lemma next_task_of_sample_ok {st st1 : SamplerState} {evs : List Event}
    {sc : String} (w : World) (fa : Bool)
    (hne : exhausted st.maxTasks = false)
    (hs : sample_scene fa st = (st1, evs, .ok sc)) :
    next_task w fa st =
      ((buildNavTask w sc (envStage sc st1).1).1,
       evs ++ (envStage sc st1).2 ++ (buildNavTask w sc (envStage sc st1).1).2.1,
       .ok (some (buildNavTask w sc (envStage sc st1).1).2.2)) := by
  simp [next_task, hne, hs]

lemma next_task_of_sample_err {st st1 : SamplerState} {evs : List Event}
    {e : PyError} (w : World) (fa : Bool)
    (hne : exhausted st.maxTasks = false)
    (hs : sample_scene fa st = (st1, evs, .error e)) :
    next_task w fa st = (st1, evs, .error e) := by
  simp [next_task, hne, hs]

lemma manip_next_task_of_sample_ok {ms : ManipState} {st1 : SamplerState}
    {evs : List Event} {sc : String} (w : World) (fa : Bool)
    (hne : exhausted ms.base.maxTasks = false)
    (hs : sample_scene fa ms.base = (st1, evs, .ok sc)) :
    manip_next_task w fa ms =
      (⟨(buildManipTask w sc (manipEnvStage sc st1).1).1, []⟩,
       evs ++ (manipEnvStage sc st1).2 ++ [Event.dropHand] ++
         (buildManipTask w sc (manipEnvStage sc st1).1).2.1,
       .ok (some (buildManipTask w sc (manipEnvStage sc st1).1).2.2)) := by
  simp [manip_next_task, hne, hs]

/-! ## `next_task` under a well-formed state -/

lemma buildNavTask_last (w : World) (sc : String) (st : SamplerState) :
    ((buildNavTask w sc st).1).lastSampledTask = some (buildNavTask w sc st).2.2 := by
  simp [buildNavTask]

lemma next_task_wf {st : SamplerState} (w : World) (fa : Bool) (h : WF st)
    (hne : exhausted st.maxTasks = false) :
    (∃ task, (next_task w fa st).2.2 = .ok (some task)) ∧
    WF (next_task w fa st).1 ∧
    ((next_task w fa st).1).maxTasks = decrMaxTasks st.maxTasks ∧
    ((next_task w fa st).1).resetTasks = st.resetTasks ∧
    ((next_task w fa st).1).scenePeriod = st.scenePeriod ∧
    ((next_task w fa st).1).scenes = st.scenes ∧
    ((next_task w fa st).1).objectTypes = st.objectTypes := by
  obtain ⟨st1, evs, sc, hs, hwf1, hmax, hreset, hscenes, hper, hot, henv, hlast⟩ :=
    sample_scene_wf fa h
  rw [next_task_of_sample_ok w fa hne hs]
  obtain ⟨e1, e2, e3, e4, e5, e6, e7, e8, e9, e10⟩ := envStage_pres sc st1
  obtain ⟨b1, b2, b3, b4, b5, b6, b7, b8, b9⟩ :=
    buildNavTask_pres w sc (envStage sc st1).1
  refine ⟨⟨_, rfl⟩, ?_, ?_, ?_, ?_, ?_, ?_⟩
  · refine ⟨?_, ?_, ?_, ?_, ?_⟩
    · rw [b1, e1]; exact hwf1.scenesNe
    · rw [b5, e5, b1, e1]; exact hwf1.orderLen
    · rw [b5, e5, b1, e1]; exact hwf1.orderMem
    · rw [b6, e6, b1, e1]; exact hwf1.idLt
    · rw [b3, e3]; exact hwf1.period
  · rw [b7, e7, hmax]
  · rw [b8, e8, hreset]
  · rw [b3, e3, hper]
  · rw [b1, e1, hscenes]
  · rw [b2, e2, hot]

lemma next_task_sets_last (w : World) (fa : Bool) (st : SamplerState) :
    (∀ t, (next_task w fa st).2.2 = .ok (some t) →
      ((next_task w fa st).1).lastSampledTask = some t) ∧
    ((next_task w fa st).2.2 = .ok none →
      ((next_task w fa st).1).lastSampledTask = st.lastSampledTask) ∧
    (∀ e, (next_task w fa st).2.2 = .error e →
      ((next_task w fa st).1).lastSampledTask = st.lastSampledTask) := by
  cases hex : exhausted st.maxTasks with
  | true =>
    rw [next_task_exhausted w fa hex]
    exact ⟨fun t ht => by simp at ht, fun _ => rfl, fun e he => by simp at he⟩
  | false =>
    rcases hs : sample_scene fa st with ⟨st1, evs, res⟩
    have hpres := sample_scene_pres fa st
    rw [hs] at hpres
    cases res with
    | error e =>
      rw [next_task_of_sample_err w fa hex hs]
      exact ⟨fun t ht => by simp at ht, fun ht => by simp at ht,
        fun e2 he => hpres.2.2.2.2.2.2⟩
    | ok sc =>
      rw [next_task_of_sample_ok w fa hex hs]
      refine ⟨fun t ht => ?_, fun ht => by simp at ht, fun e he => by simp at he⟩
      have : (buildNavTask w sc (envStage sc st1).1).2.2 = t := by
        simpa using ht
      rw [buildNavTask_last, this]

/-! ## The integer-period rotation branches -/

lemma rotationPolicy_int_stay {st : SamplerState} {n : Int}
    (hp : st.scenePeriod = .pyInt n) (hc : st.sceneCounter ≠ n) :
    rotationPolicy st = .ok { st with sceneCounter := st.sceneCounter + 1 } := by
  simp [rotationPolicy, hp, isPyNone, isManual, pyEqInt, isInstInt, hc]

lemma rotationPolicy_int_adv {st : SamplerState} {n : Int}
    (hp : st.scenePeriod = .pyInt n) (hc : st.sceneCounter = n)
    (hlast : (st.sceneId : Int) ≠ (st.sceneOrder.length : Int) - 1) :
    rotationPolicy st = .ok { st with sceneId := st.sceneId + 1, sceneCounter := 1 } := by
  simp [rotationPolicy, hp, isPyNone, isManual, pyEqInt, hc, hlast]

/-- One un-forced `next_task` call, characterised by the state the rotation
policy produced: the call returns a task and the end state carries the
policy state's rotation fields with the budget decremented. -/
lemma step_of_policy {st st2 : SamplerState} {j : Nat} {sc : String} (w : World)
    (hrot : rotationPolicy st = .ok st2)
    (h1 : st2.sceneOrder[st2.sceneId]? = some j)
    (h2 : st2.scenes[j]? = some sc)
    (hne : exhausted st.maxTasks = false) :
    (∃ task, (next_task w false st).2.2 = .ok (some task)) ∧
    (stepState w st).sceneId = st2.sceneId ∧
    (stepState w st).sceneCounter = st2.sceneCounter ∧
    (stepState w st).sceneOrder = st2.sceneOrder ∧
    (stepState w st).scenes = st2.scenes ∧
    (stepState w st).scenePeriod = st2.scenePeriod ∧
    (stepState w st).maxTasks = decrMaxTasks st2.maxTasks ∧
    (stepState w st).objectTypes = st2.objectTypes := by
  have hrot2 : rotationPolicy (forceAdvanceStage false st).1 = .ok st2 := hrot
  have heq := sample_scene_result_ok false hrot2 h1 h2
  obtain ⟨e1, e2, e3, e4, e5, e6, e7, e8, e9, e10⟩ :=
    envStage_pres sc { st2 with maxTasks := decrMaxTasks st2.maxTasks }
  obtain ⟨b1, b2, b3, b4, b5, b6, b7, b8, b9⟩ :=
    buildNavTask_pres w sc (envStage sc { st2 with maxTasks := decrMaxTasks st2.maxTasks }).1
  unfold stepState
  rw [next_task_of_sample_ok w false hne heq]
  refine ⟨⟨_, rfl⟩, ?_, ?_, ?_, ?_, ?_, ?_, ?_⟩
  · rw [b6, e6]
  · rw [b4, e4]
  · rw [b5, e5]
  · rw [b1, e1]
  · rw [b3, e3]
  · rw [b7, e7]
  · rw [b2, e2]

/-! ## Claim theorems -/

/-- C9: when `next_task` is invoked with a non-`None`, non-positive
`max_tasks`, both samplers return nothing and the call is pure — the whole
sampler state (in particular `scene_id`, `scene_counter`, `scene_order` and
`max_tasks`) is unchanged and no environment call or warning happens (empty
event trace). -/
theorem exhausted_call_is_pure (w : World) (fa : Bool) (st : SamplerState)
    (ms : ManipState) (m : Int) (h1 : st.maxTasks = some m)
    (h2 : ms.base.maxTasks = some m) (h3 : m ≤ 0) :
    next_task w fa st = (st, [], .ok none) ∧
    manip_next_task w fa ms = (ms, [], .ok none) := by
  have hex1 : exhausted st.maxTasks = true := by simp [exhausted, h1, h3]
  have hex2 : exhausted ms.base.maxTasks = true := by simp [exhausted, h2, h3]
  exact ⟨next_task_exhausted w fa hex1, manip_next_task_exhausted w fa hex2⟩

/-- C9 witness: a concrete exhausted sampler in both variants. -/
theorem exhausted_call_is_pure_witness :
    next_task wEx false stEx1 = (stEx1, [], .ok none) ∧
    manip_next_task wEx false ⟨stEx1, []⟩ = (⟨stEx1, []⟩, [], .ok none) :=
  exhausted_call_is_pure wEx false stEx1 ⟨stEx1, []⟩ 0 (by decide) (by decide)
    (by decide)

/-- C10: assigning a class-level attribute on `ExperimentConfig` (or a
subclass — any class whose metaclass is `FrozenClassVariables`, where
`isinstance(cls, type)` holds) raises `RuntimeError` exactly when the
attribute is neither `__abstractmethods__` nor starts with `_abc_`; in the
excepted cases the assignment succeeds, and instance-level assignment is
untouched by the guard. -/
theorem frozen_class_guard (attr : String) :
    (frozenClassSetattr true attr = .error PyError.runtimeErr ↔
      ¬(attr = "__abstractmethods__" ∨
        startsWithChars "_abc_".data attr.data = true)) ∧
    ((attr = "__abstractmethods__" ∨ startsWithChars "_abc_".data attr.data = true) →
      frozenClassSetattr true attr = .ok ()) ∧
    instanceSetattr attr = .ok () := by
  by_cases ha : attr = "__abstractmethods__" <;>
    by_cases hb : startsWithChars "_abc_".data attr.data = true <;>
    simp [frozenClassSetattr, instanceSetattr, ha, hb]

/-- C10 witness: a plain attribute is rejected, the two exempted shapes are
allowed, and instance assignment succeeds. -/
theorem frozen_class_guard_witness :
    frozenClassSetattr true "tag" = .error PyError.runtimeErr ∧
    frozenClassSetattr true "__abstractmethods__" = .ok () ∧
    frozenClassSetattr true "_abc_impl" = .ok () ∧
    instanceSetattr "tag" = .ok () :=
  ⟨(frozen_class_guard "tag").1.mpr (by decide),
   (frozen_class_guard "__abstractmethods__").2.1 (Or.inl rfl),
   (frozen_class_guard "_abc_impl").2.1 (Or.inr (by decide)),
   (frozen_class_guard "tag").2.2⟩

/-- C8: two samplers constructed with the same non-`None` seed and the same
configuration produce identical `next_task` result sequences — chosen
scenes and agent poses included — whatever generator state each process had
before construction. -/
theorem same_seed_same_trace (w : World) (cfg : Config) (s : Nat)
    (amb1 amb2 : Rng) (calls : List Bool) :
    runTrace w (mkSampler amb1 cfg (some s)) calls =
      runTrace w (mkSampler amb2 cfg (some s)) calls := by
  have h : mkSampler amb1 cfg (some s) = mkSampler amb2 cfg (some s) := rfl
  rw [h]

/-- C5 counterexample: with the unrecognized `scene_period` `"weekly"` and
`max_tasks = 5`, `sample_scene` raises and leaves `max_tasks` at `5` — the
decrement (to `4`) never runs, contradicting "decrements on every call,
including calls that fail". -/
theorem budget_kept_on_raise_cex :
    (sample_scene false weeklySt).2.2 = .error PyError.notImplErr ∧
    ((sample_scene false weeklySt).1).maxTasks = some 5 ∧
    decrMaxTasks (some 5) = some 4 := by decide

/-- C5 amended: `sample_scene` decrements a non-`None` `max_tasks` by one
on every call that does not raise the unrecognized-`scene_period` error
(whatever recognised branch is taken, indexing failures included); a call
that raises that error leaves `max_tasks` unchanged. -/
theorem budget_decrement_policy (fa : Bool) (st : SamplerState) :
    ((sample_scene fa st).2.2 = .error PyError.notImplErr →
      ((sample_scene fa st).1).maxTasks = st.maxTasks) ∧
    ((sample_scene fa st).2.2 ≠ .error PyError.notImplErr →
      ((sample_scene fa st).1).maxTasks = decrMaxTasks st.maxTasks) := by
  obtain ⟨f1, f2, f3, f4, f5, f6, f7, f8, f9⟩ := forceAdvance_pres fa st
  cases hrot : rotationPolicy (forceAdvanceStage fa st).1 with
  | error e =>
    have he : e = PyError.notImplErr := rotationPolicy_error hrot
    subst he
    rw [sample_scene_fst_err fa hrot]
    exact ⟨fun _ => f5, fun hne => absurd rfl hne⟩
  | ok st2 =>
    obtain ⟨g1, g2, g3, g4, g5, g6, g7, g8⟩ := rotationPolicy_pres hrot
    have hmax : ((sample_scene fa st).1).maxTasks = decrMaxTasks st.maxTasks := by
      rw [sample_scene_fst_ok fa hrot]
      simp [g4, f5]
    refine ⟨fun habs => absurd habs ?_, fun _ => hmax⟩
    simp only [sample_scene, hrot]
    rcases h1 : st2.sceneOrder[st2.sceneId]? with _ | j
    · simp [h1]
    · rcases h2 : st2.scenes[j]? with _ | sc <;> simp [h1, h2]

/-- C5 amended witness: a recognised branch decrements the budget. -/
theorem budget_decrement_policy_witness :
    ((sample_scene false floatSt).1).maxTasks = decrMaxTasks floatSt.maxTasks :=
  (budget_decrement_policy false floatSt).2 (by decide)

/-- C4 counterexample: the float `0.0` is neither `None` nor `"manual"` nor
an int, yet immediately after reset (`scene_counter == 0`, and Python's
`0 == 0.0` holds) `sample_scene` takes the period-advance branch and
returns a scene instead of raising. -/
theorem unrecognized_period_no_raise_cex :
    isPyNone floatSt.scenePeriod = false ∧
    isManual floatSt.scenePeriod = false ∧
    isInstInt floatSt.scenePeriod = false ∧
    (sample_scene false floatSt).2.2 = .ok "B" := by decide

/-- C4 amended: an unrecognized `scene_period` (not `None`, not `"manual"`,
not an int) makes `sample_scene` — and hence `next_task` — fail immediately
with the configuration error, provided the value does not compare
`==`-equal to the current `scene_counter`; a value that does compare equal
(e.g. the float `0.0` right after reset) slips into the period-advance
branch instead. -/
theorem unrecognized_period_raises (fa : Bool) (st : SamplerState)
    (h1 : isPyNone st.scenePeriod = false) (h2 : isManual st.scenePeriod = false)
    (h3 : isInstInt st.scenePeriod = false)
    (h4 : pyEqInt st.sceneCounter st.scenePeriod = false) :
    (sample_scene fa st).2.2 = .error PyError.notImplErr ∧
    ∀ w : World, exhausted st.maxTasks = false →
      (next_task w fa st).2.2 = .error PyError.notImplErr := by
  obtain ⟨f1, f2, f3, f4, f5, f6, f7, f8, f9⟩ := forceAdvance_pres fa st
  have hrot : rotationPolicy (forceAdvanceStage fa st).1 = .error PyError.notImplErr := by
    unfold rotationPolicy
    rw [f3, f4]
    simp [h1, h2, h3, h4]
  refine ⟨by rw [sample_scene_fst_err fa hrot], fun w hne => ?_⟩
  rw [next_task_of_sample_err w fa hne (sample_scene_fst_err fa hrot)]

/-- C4 amended witness: the string `"weekly"` raises at once. -/
theorem unrecognized_period_raises_witness :
    (sample_scene false weeklySt).2.2 = .error PyError.notImplErr :=
  (unrecognized_period_raises false weeklySt (by decide) (by decide) (by decide)
    (by decide)).1

/-- C3 counterexample: with `max_tasks = 1`, the first call produces a task
and the second returns nothing — yet `last_sampled_task` still holds the
first task instead of `None` after exhaustion. -/
theorem last_task_after_exhaustion_cex :
    (next_task wEx false stEx1).2.2 = .ok none ∧
    ((next_task wEx false stEx1).1).lastSampledTask ≠ none := by decide

/-- C3 amended: `last_sampled_task` is `None` at construction, is set to
every successful `next_task` result, and is left unchanged — retaining the
most recent successful task rather than becoming `None` — by calls that
return nothing (budget exhausted) or raise. -/
theorem last_task_tracks_success :
    (∀ (amb : Rng) (cfg : Config) (seed : Option Nat),
      (mkSampler amb cfg seed).lastSampledTask = none) ∧
    (∀ (w : World) (fa : Bool) (st : SamplerState),
      (∀ t, (next_task w fa st).2.2 = .ok (some t) →
        ((next_task w fa st).1).lastSampledTask = some t) ∧
      ((next_task w fa st).2.2 = .ok none →
        ((next_task w fa st).1).lastSampledTask = st.lastSampledTask) ∧
      (∀ e, (next_task w fa st).2.2 = .error e →
        ((next_task w fa st).1).lastSampledTask = st.lastSampledTask)) := by
  constructor
  · intro amb cfg seed
    cases seed <;> rfl
  · intro w fa st
    exact next_task_sets_last w fa st

/-- C3 amended witness: the exhausted second call leaves the recorded task
in place. -/
theorem last_task_tracks_success_witness :
    ((next_task wEx false stEx1).1).lastSampledTask = stEx1.lastSampledTask :=
  (last_task_tracks_success.2 wEx false stEx1).2.1 (by decide)

/-- C6: on a `next_task` call with a live environment, the navigation
sampler issues an environment reset for the sampled scene exactly when the
`_physics`-stripped scene names differ (so `Kitchen1` against
`Kitchen1_physics` skips the reset), while the manipulation sampler resets
unconditionally. -/
theorem reset_skip_iff_normalized_differs
    (w : World) (fa : Bool) (st st1 st1m : SamplerState) (ms : ManipState)
    (evs evsm : List Event) (sc es scm esm : String)
    (hne : exhausted st.maxTasks = false)
    (hs : sample_scene fa st = (st1, evs, .ok sc))
    (henv : st.env = some es)
    (hmne : exhausted ms.base.maxTasks = false)
    (hms : sample_scene fa ms.base = (st1m, evsm, .ok scm))
    (hmenv : ms.base.env = some esm) :
    ((Event.envReset sc ∈ (next_task w fa st).2.1) ↔
      stripPhysics sc ≠ stripPhysics es) ∧
    Event.envReset scm ∈ (manip_next_task w fa ms).2.1 := by
  constructor
  · have henv1 : st1.env = some es := by
      have hpres := sample_scene_pres fa st
      rw [hs] at hpres
      rw [hpres.2.2.2.2.2.1]
      exact henv
    have hnotevs : Event.envReset sc ∉ evs := by
      intro hm
      have hall := sample_scene_events fa st
      rw [hs] at hall
      have := hall _ hm
      simp at this
    have hnotwarn : Event.envReset sc ∉ (buildNavTask w sc (envStage sc st1).1).2.1 := by
      rw [buildNavTask_warn]
      split_ifs <;> simp
    rw [next_task_of_sample_ok w fa hne hs]
    simp only [List.mem_append]
    rw [envStage_events_some sc henv1]
    constructor
    · rintro ((h | h) | h)
      · exact absurd h hnotevs
      · revert h
        split_ifs with hcond
        · intro _
          exact hcond
        · intro h
          simp at h
      · exact absurd h hnotwarn
    · intro hcond
      left
      right
      rw [if_pos hcond]
      simp
  · have henv1m : st1m.env = some esm := by
      have hpres := sample_scene_pres fa ms.base
      rw [hms] at hpres
      rw [hpres.2.2.2.2.2.1]
      exact hmenv
    rw [manip_next_task_of_sample_ok w fa hmne hms]
    simp only [List.mem_append]
    rw [manipEnvStage_events_some scm henv1m]
    simp

/-- C6 witness: scene `Kitchen1` against environment scene
`Kitchen1_physics` — the navigation sampler skips the reset, the
manipulation sampler resets anyway. -/
theorem reset_skip_iff_normalized_differs_witness :
    ((Event.envReset "Kitchen1" ∈ (next_task wEx false manualSt).2.1) ↔
      stripPhysics "Kitchen1" ≠ stripPhysics "Kitchen1_physics") ∧
    Event.envReset "Kitchen1" ∈ (manip_next_task wEx false ⟨manualSt, []⟩).2.1 :=
  reset_skip_iff_normalized_differs wEx false manualSt manualSt manualSt
    ⟨manualSt, []⟩ [] [] "Kitchen1" "Kitchen1_physics" "Kitchen1"
    "Kitchen1_physics" (by decide) (by decide) rfl (by decide) (by decide) rfl

/-- C7: in both samplers, whenever scene sampling succeeds `next_task`
still returns a task; its `object_type` is the first type present in the
scene along a random order over `object_types` drawn without replacement (a
permutation), its `start_pose` is always set, the no-object warning is
logged exactly when no requested type is present, and in that degenerate
case the task carries no `object_type` and no error is raised. -/
theorem degenerate_scene_warns_and_continues
    (w : World) (fa : Bool) (st st1 : SamplerState) (evs : List Event)
    (sc : String) (hne : exhausted st.maxTasks = false)
    (hs : sample_scene fa st = (st1, evs, .ok sc))
    (ms : ManipState) (st1m : SamplerState) (evsm : List Event) (scm : String)
    (hmne : exhausted ms.base.maxTasks = false)
    (hms : sample_scene fa ms.base = (st1m, evsm, .ok scm)) :
    (∃ (task : Task) (ord : List String),
      (next_task w fa st).2.2 = .ok (some task) ∧
      ord.Perm st.objectTypes ∧
      task.taskInfo.objectType =
        ord.find? (fun ot => decide (ot ∈ w.sceneObjects sc)) ∧
      task.taskInfo.startPose = w.agentPose sc ∧
      (task.taskInfo.objectType = none ↔
        Event.warnNoObject sc ∈ (next_task w fa st).2.1) ∧
      ((∀ ot ∈ st.objectTypes, ot ∉ w.sceneObjects sc) →
        task.taskInfo.objectType = none)) ∧
    (∃ (taskm : Task) (ordm : List String),
      (manip_next_task w fa ms).2.2 = .ok (some taskm) ∧
      ordm.Perm ms.base.objectTypes ∧
      taskm.taskInfo.objectType =
        ordm.find? (fun ot => decide (ot ∈ w.sceneObjects scm)) ∧
      taskm.taskInfo.startPose =
        w.reachableAgentPose scm ms.base.objectTypes ∧
      (taskm.taskInfo.objectType = none ↔
        Event.warnNoObject scm ∈ (manip_next_task w fa ms).2.1) ∧
      ((∀ ot ∈ ms.base.objectTypes, ot ∉ w.sceneObjects scm) →
        taskm.taskInfo.objectType = none)) := by
  constructor
  · have hot1 : st1.objectTypes = st.objectTypes := by
      have hpres := sample_scene_pres fa st
      rw [hs] at hpres
      exact hpres.2.1
    have hot2 : ((envStage sc st1).1).objectTypes = st.objectTypes :=
      ((envStage_pres sc st1).2.1).trans hot1
    refine ⟨(buildNavTask w sc (envStage sc st1).1).2.2,
      (shuffle ((envStage sc st1).1).rng ((envStage sc st1).1).objectTypes).1,
      ?_, ?_, ?_, ?_, ?_, ?_⟩
    · rw [next_task_of_sample_ok w fa hne hs]
    · rw [hot2]
      exact shuffle_perm _ _
    · rw [buildNavTask_objectType]
      simp [selectObjectType]
    · exact buildNavTask_startPose w sc (envStage sc st1).1
    · rw [next_task_of_sample_ok w fa hne hs]
      constructor
      · intro hnone
        simp only [List.mem_append]
        right
        rw [buildNavTask_warn, if_pos hnone]
        simp
      · intro hmem
        by_contra hne2
        have h1 : Event.warnNoObject sc ∉ evs := by
          intro hm
          have hall := sample_scene_events fa st
          rw [hs] at hall
          have := hall _ hm
          simp at this
        have h2 : Event.warnNoObject sc ∉ (envStage sc st1).2 := by
          intro hm
          rcases envStage_events_shape sc st1 _ hm with h | h <;> simp at h
        have h3 : (buildNavTask w sc (envStage sc st1).1).2.1 = [] := by
          rw [buildNavTask_warn, if_neg hne2]
        simp only [List.mem_append, h3] at hmem
        rcases hmem with (hm | hm) | hm
        · exact h1 hm
        · exact h2 hm
        · simp at hm
    · intro hnone
      rw [buildNavTask_objectType]
      simp only [selectObjectType]
      apply List.find?_eq_none.mpr
      intro x hx
      have hxmem : x ∈ st.objectTypes := by
        have := shuffle_mem hx
        rwa [hot2] at this
      simp [hnone x hxmem]
  · have hot1m : st1m.objectTypes = ms.base.objectTypes := by
      have hpres := sample_scene_pres fa ms.base
      rw [hms] at hpres
      exact hpres.2.1
    have hot2m : ((manipEnvStage scm st1m).1).objectTypes = ms.base.objectTypes :=
      ((manipEnvStage_pres scm st1m).2.1).trans hot1m
    refine ⟨(buildManipTask w scm (manipEnvStage scm st1m).1).2.2,
      (shuffle ((manipEnvStage scm st1m).1).rng
        ((manipEnvStage scm st1m).1).objectTypes).1,
      ?_, ?_, ?_, ?_, ?_, ?_⟩
    · rw [manip_next_task_of_sample_ok w fa hmne hms]
    · rw [hot2m]
      exact shuffle_perm _ _
    · rw [buildManipTask_objectType]
      simp [selectObjectType]
    · rw [buildManipTask_startPose, hot2m]
    · rw [manip_next_task_of_sample_ok w fa hmne hms]
      constructor
      · intro hnone
        simp only [List.mem_append]
        right
        rw [buildManipTask_warn, if_pos hnone]
        simp
      · intro hmem
        by_contra hne2
        have h1 : Event.warnNoObject scm ∉ evsm := by
          intro hm
          have hall := sample_scene_events fa ms.base
          rw [hms] at hall
          have := hall _ hm
          simp at this
        have h2 : Event.warnNoObject scm ∉ (manipEnvStage scm st1m).2 := by
          intro hm
          rcases manipEnvStage_events_shape scm st1m _ hm with h | h <;> simp at h
        have h3 : (buildManipTask w scm (manipEnvStage scm st1m).1).2.1 = [] := by
          rw [buildManipTask_warn, if_neg hne2]
        simp only [List.mem_append, h3] at hmem
        rcases hmem with ((hm | hm) | hm) | hm
        · exact h1 hm
        · exact h2 hm
        · simp at hm
        · simp at hm
    · intro hnone
      rw [buildManipTask_objectType]
      simp only [selectObjectType]
      apply List.find?_eq_none.mpr
      intro x hx
      have hxmem : x ∈ ms.base.objectTypes := by
        have := shuffle_mem hx
        rwa [hot2m] at this
      simp [hnone x hxmem]

/-- C7 witness: in a world with no objects anywhere, both samplers still
produce a task with no `object_type` and log the warning. -/
theorem degenerate_scene_warns_witness :
    (∃ (task : Task) (ord : List String),
      (next_task wNone false manualSt).2.2 = .ok (some task) ∧
      ord.Perm manualSt.objectTypes ∧
      task.taskInfo.objectType =
        ord.find? (fun ot => decide (ot ∈ wNone.sceneObjects "Kitchen1")) ∧
      task.taskInfo.startPose = wNone.agentPose "Kitchen1" ∧
      (task.taskInfo.objectType = none ↔
        Event.warnNoObject "Kitchen1" ∈ (next_task wNone false manualSt).2.1) ∧
      ((∀ ot ∈ manualSt.objectTypes, ot ∉ wNone.sceneObjects "Kitchen1") →
        task.taskInfo.objectType = none)) ∧
    (∃ (taskm : Task) (ordm : List String),
      (manip_next_task wNone false ⟨manualSt, []⟩).2.2 = .ok (some taskm) ∧
      ordm.Perm manualSt.objectTypes ∧
      taskm.taskInfo.objectType =
        ordm.find? (fun ot => decide (ot ∈ wNone.sceneObjects "Kitchen1")) ∧
      taskm.taskInfo.startPose =
        wNone.reachableAgentPose "Kitchen1" manualSt.objectTypes ∧
      (taskm.taskInfo.objectType = none ↔
        Event.warnNoObject "Kitchen1" ∈
          (manip_next_task wNone false ⟨manualSt, []⟩).2.1) ∧
      ((∀ ot ∈ manualSt.objectTypes, ot ∉ wNone.sceneObjects "Kitchen1") →
        taskm.taskInfo.objectType = none)) :=
  degenerate_scene_warns_and_continues wNone false manualSt manualSt []
    "Kitchen1" (by decide) (by decide) ⟨manualSt, []⟩ manualSt [] "Kitchen1"
    (by decide) (by decide)

/-- The budget invariant: starting from a well-formed state whose budget is
`K`, after `i ≤ K` un-forced calls the state is still well-formed, the
budget is `K - i`, and the configured reset budget is untouched. -/
lemma budget_run {st : SamplerState} (w : World) (K : Nat) (h : WF st)
    (hmax : st.maxTasks = some (K : Int))
    (hreset : st.resetTasks = some (K : Int)) :
    ∀ i, i ≤ K → WF (iterNext w i st) ∧
      (iterNext w i st).maxTasks = some ((K : Int) - i) ∧
      (iterNext w i st).resetTasks = some (K : Int) := by
  intro i
  induction i with
  | zero =>
    intro _
    exact ⟨h, by simpa using hmax, hreset⟩
  | succ i ih =>
    intro hle
    obtain ⟨hwf, hm, hr⟩ := ih (by omega)
    have hne : exhausted (iterNext w i st).maxTasks = false := by
      rw [hm]
      simp only [exhausted, decide_eq_false_iff_not]
      omega
    obtain ⟨_, hwf2, hm2, hr2, _, _, _⟩ := next_task_wf w false hwf hne
    refine ⟨hwf2, ?_, hr2.trans hr⟩
    rw [show iterNext w (i + 1) st = (next_task w false (iterNext w i st)).1 from rfl]
    rw [hm2, hm]
    simp only [decrMaxTasks]
    congr 1
    push_cast
    ring

/-- C2: with budget `K > 0` on a well-formed sampler, the first `K`
un-forced `next_task` calls each return a task, the `(K+1)`-th returns
nothing, the `length` property counts down from `K` to `0`, and `reset()`
restores it to `K`. -/
theorem max_tasks_budget (w : World) (st : SamplerState) (K : Nat)
    (hK : 0 < K) (h : WF st) (hmax : st.maxTasks = some (K : Int))
    (hreset : st.resetTasks = some (K : Int)) :
    (∀ i, i < K → ∃ task,
      (next_task w false (iterNext w i st)).2.2 = .ok (some task)) ∧
    (next_task w false (iterNext w K st)).2.2 = .ok none ∧
    (∀ i, i ≤ K → samplerLength (iterNext w i st) = .fin ((K : Int) - i)) ∧
    samplerLength (resetSampler (iterNext w (K + 1) st)) = .fin (K : Int) := by
  have hrun := budget_run w K h hmax hreset
  have hexK : exhausted (iterNext w K st).maxTasks = true := by
    obtain ⟨_, hm, _⟩ := hrun K le_rfl
    rw [hm]
    simp [exhausted]
  refine ⟨?_, ?_, ?_, ?_⟩
  · intro i hi
    obtain ⟨hwf, hm, _⟩ := hrun i (le_of_lt hi)
    have hne : exhausted (iterNext w i st).maxTasks = false := by
      rw [hm]
      simp only [exhausted, decide_eq_false_iff_not]
      omega
    exact (next_task_wf w false hwf hne).1
  · rw [next_task_exhausted w false hexK]
  · intro i hle
    obtain ⟨_, hm, _⟩ := hrun i hle
    simp [samplerLength, hm]
  · obtain ⟨_, _, hr⟩ := hrun K le_rfl
    have hstep : iterNext w (K + 1) st = iterNext w K st := by
      show stepState w (iterNext w K st) = iterNext w K st
      unfold stepState
      rw [next_task_exhausted w false hexK]
    rw [hstep]
    simp [samplerLength, resetSampler, hr]

/-- C2 witness: the concrete seeded sampler with budget 1. -/
theorem max_tasks_budget_witness :
    (∀ i, i < 1 → ∃ task,
      (next_task wEx false (iterNext wEx i stEx)).2.2 = .ok (some task)) ∧
    (next_task wEx false (iterNext wEx 1 stEx)).2.2 = .ok none ∧
    (∀ i, i ≤ 1 →
      samplerLength (iterNext wEx i stEx) = .fin ((1 : Int) - i)) ∧
    samplerLength (resetSampler (iterNext wEx 2 stEx)) = .fin (1 : Int) :=
  max_tasks_budget wEx stEx 1 (by decide)
    ⟨by decide, by decide, by decide, by decide, Or.inl rfl⟩
    (by decide) (by decide)

/-! ## C1: the integer-period rotation schedule -/

lemma stay_step (w : World) {s : SamplerState} {n : Int}
    (hp : s.scenePeriod = .pyInt n) (hmax : s.maxTasks = none)
    (hc : s.sceneCounter ≠ n)
    (hordlen : s.sceneOrder.length = s.scenes.length)
    (hordmem : ∀ x ∈ s.sceneOrder, x < s.scenes.length)
    (hidlt : s.sceneId < s.scenes.length) :
    (∃ task, (next_task w false s).2.2 = .ok (some task)) ∧
    (stepState w s).sceneId = s.sceneId ∧
    (stepState w s).sceneCounter = s.sceneCounter + 1 ∧
    (stepState w s).sceneOrder = s.sceneOrder ∧
    (stepState w s).scenes = s.scenes ∧
    (stepState w s).scenePeriod = s.scenePeriod ∧
    (stepState w s).maxTasks = none := by
  have hrot := rotationPolicy_int_stay hp hc
  obtain ⟨j, sc, h1, h2⟩ := index_ok hordlen hordmem hidlt
  have hne : exhausted s.maxTasks = false := by rw [hmax]; rfl
  obtain ⟨ht, p1, p2, p3, p4, p5, p6, p7⟩ := step_of_policy w hrot h1 h2 hne
  exact ⟨ht, by simpa using p1, by simpa using p2, by simpa using p3,
    by simpa using p4, by simpa using p5,
    by simpa [decrMaxTasks, hmax] using p6⟩

lemma adv_step (w : World) {s : SamplerState} {n : Int}
    (hp : s.scenePeriod = .pyInt n) (hmax : s.maxTasks = none)
    (hc : s.sceneCounter = n)
    (hlast : (s.sceneId : Int) ≠ (s.sceneOrder.length : Int) - 1)
    (hordlen : s.sceneOrder.length = s.scenes.length)
    (hordmem : ∀ x ∈ s.sceneOrder, x < s.scenes.length)
    (hidlt : s.sceneId + 1 < s.scenes.length) :
    (∃ task, (next_task w false s).2.2 = .ok (some task)) ∧
    (stepState w s).sceneId = s.sceneId + 1 ∧
    (stepState w s).sceneCounter = 1 ∧
    (stepState w s).sceneOrder = s.sceneOrder ∧
    (stepState w s).scenes = s.scenes ∧
    (stepState w s).scenePeriod = s.scenePeriod ∧
    (stepState w s).maxTasks = none := by
  have hrot := rotationPolicy_int_adv hp hc hlast
  obtain ⟨j, sc, h1, h2⟩ := index_ok hordlen hordmem hidlt
  have hne : exhausted s.maxTasks = false := by rw [hmax]; rfl
  obtain ⟨ht, p1, p2, p3, p4, p5, p6, p7⟩ := step_of_policy w hrot h1 h2 hne
  exact ⟨ht, by simpa using p1, by simpa using p2, by simpa using p3,
    by simpa using p4, by simpa using p5,
    by simpa [decrMaxTasks, hmax] using p6⟩

lemma c1_step_stay (w : World) (st : SamplerState) {s : SamplerState}
    {N L k : Nat} {c : Int}
    (hsid : s.sceneId = k) (hscnt : s.sceneCounter = c)
    (hsord : s.sceneOrder = st.sceneOrder) (hssc : s.scenes = st.scenes)
    (hsper : s.scenePeriod = .pyInt (N : Int)) (hsmax : s.maxTasks = none)
    (hscenes : st.scenes.length = L) (hord : st.sceneOrder.length = L)
    (hmem : ∀ x ∈ st.sceneOrder, x < L) (hkL : k < L)
    (hcN : c ≠ (N : Int)) :
    (stepState w s).sceneId = k ∧
    (stepState w s).sceneCounter = c + 1 ∧
    (stepState w s).sceneOrder = st.sceneOrder ∧
    (stepState w s).scenes = st.scenes ∧
    (stepState w s).scenePeriod = .pyInt (N : Int) ∧
    (stepState w s).maxTasks = none ∧
    (∃ task, (next_task w false s).2.2 = .ok (some task)) := by
  have h1 : s.sceneOrder.length = s.scenes.length := by
    rw [hsord, hssc, hord, hscenes]
  have h2 : ∀ x ∈ s.sceneOrder, x < s.scenes.length := by
    rw [hsord, hssc, hscenes]
    exact hmem
  have h3 : s.sceneId < s.scenes.length := by
    rw [hsid, hssc, hscenes]
    exact hkL
  have hc : s.sceneCounter ≠ (N : Int) := by rw [hscnt]; exact hcN
  obtain ⟨ht, p1, p2, p3, p4, p5, p6⟩ := stay_step w hsper hsmax hc h1 h2 h3
  exact ⟨p1.trans hsid, by rw [p2, hscnt], p3.trans hsord, p4.trans hssc,
    p5.trans hsper, p6, ht⟩

lemma c1_step_adv (w : World) (st : SamplerState) {s : SamplerState}
    {N L k : Nat}
    (hsid : s.sceneId = k) (hscnt : s.sceneCounter = (N : Int))
    (hsord : s.sceneOrder = st.sceneOrder) (hssc : s.scenes = st.scenes)
    (hsper : s.scenePeriod = .pyInt (N : Int)) (hsmax : s.maxTasks = none)
    (hscenes : st.scenes.length = L) (hord : st.sceneOrder.length = L)
    (hmem : ∀ x ∈ st.sceneOrder, x < L) (hkL1 : k + 1 < L) :
    (stepState w s).sceneId = k + 1 ∧
    (stepState w s).sceneCounter = 1 ∧
    (stepState w s).sceneOrder = st.sceneOrder ∧
    (stepState w s).scenes = st.scenes ∧
    (stepState w s).scenePeriod = .pyInt (N : Int) ∧
    (stepState w s).maxTasks = none ∧
    (∃ task, (next_task w false s).2.2 = .ok (some task)) := by
  have h1 : s.sceneOrder.length = s.scenes.length := by
    rw [hsord, hssc, hord, hscenes]
  have h2 : ∀ x ∈ s.sceneOrder, x < s.scenes.length := by
    rw [hsord, hssc, hscenes]
    exact hmem
  have h3 : s.sceneId + 1 < s.scenes.length := by
    rw [hsid, hssc, hscenes]
    exact hkL1
  have hlast : (s.sceneId : Int) ≠ (s.sceneOrder.length : Int) - 1 := by
    rw [hsid, hsord, hord]
    omega
  obtain ⟨ht, p1, p2, p3, p4, p5, p6⟩ := adv_step w hsper hsmax hscnt hlast h1 h2 h3
  refine ⟨?_, p2, p3.trans hsord, p4.trans hssc, p5.trans hsper, p6, ht⟩
  rw [p1, hsid]

lemma c1_aux (w : World) (st : SamplerState) (N L : Nat) (hN : 0 < N)
    (hL : 2 ≤ L) (hscenes : st.scenes.length = L)
    (hp : st.scenePeriod = .pyInt (N : Int)) (hcnt : st.sceneCounter = 0)
    (hid : st.sceneId = 0) (hord : st.sceneOrder.length = L)
    (hmem : ∀ x ∈ st.sceneOrder, x < L) (hmax : st.maxTasks = none) :
    ∀ k, k < L → ∀ r, r < N →
      (iterNext w (k * N + r + 1) st).sceneId = k ∧
      (iterNext w (k * N + r + 1) st).sceneCounter = (r : Int) + 1 ∧
      (iterNext w (k * N + r + 1) st).sceneOrder = st.sceneOrder ∧
      (iterNext w (k * N + r + 1) st).scenes = st.scenes ∧
      (iterNext w (k * N + r + 1) st).scenePeriod = .pyInt (N : Int) ∧
      (iterNext w (k * N + r + 1) st).maxTasks = none ∧
      (∃ task, (next_task w false (iterNext w (k * N + r) st)).2.2 =
        .ok (some task)) := by
  intro k
  induction k with
  | zero =>
    intro hkL r
    induction r with
    | zero =>
      intro hrN
      have hidx : (0 * N + 0 : Nat) = 0 := by simp
      rw [hidx]
      have hc0 : (0 : Int) ≠ (N : Int) := by omega
      have step := c1_step_stay w st hid hcnt rfl rfl hp hmax hscenes hord hmem
        (by omega) hc0
      refine ⟨step.1, ?_, step.2.2.1, step.2.2.2.1, step.2.2.2.2.1,
        step.2.2.2.2.2.1, step.2.2.2.2.2.2⟩
      rw [show iterNext w (0 + 1) st = stepState w st from rfl]
      have hs := step.2.1
      omega
    | succ r ihr =>
      intro hrN
      obtain ⟨q1, q2, q3, q4, q5, q6, _⟩ := ihr (by omega)
      have hidx : (0 * N + (r + 1) : Nat) = 0 * N + r + 1 := rfl
      rw [hidx]
      have hcr : ((r : Int) + 1) ≠ (N : Int) := by omega
      have step := c1_step_stay w st q1 q2 q3 q4 q5 q6 hscenes hord hmem hkL hcr
      refine ⟨step.1, ?_, step.2.2.1, step.2.2.2.1, step.2.2.2.2.1,
        step.2.2.2.2.2.1, step.2.2.2.2.2.2⟩
      rw [show iterNext w (0 * N + r + 1 + 1) st =
        stepState w (iterNext w (0 * N + r + 1) st) from rfl]
      have hs := step.2.1
      omega
  | succ k ihk =>
    intro hkL r
    induction r with
    | zero =>
      intro hrN
      obtain ⟨q1, q2, q3, q4, q5, q6, _⟩ := ihk (by omega) (N - 1) (by omega)
      have hcnt2 : (iterNext w (k * N + (N - 1) + 1) st).sceneCounter = (N : Int) := by
        have hs := q2
        omega
      have step := c1_step_adv w st q1 hcnt2 q3 q4 q5 q6 hscenes hord hmem hkL
      have hidx : ((k + 1) * N + 0 : Nat) = k * N + (N - 1) + 1 := by
        rw [Nat.succ_mul]
        omega
      rw [hidx]
      refine ⟨step.1, ?_, step.2.2.1, step.2.2.2.1, step.2.2.2.2.1,
        step.2.2.2.2.2.1, step.2.2.2.2.2.2⟩
      rw [show iterNext w (k * N + (N - 1) + 1 + 1) st =
        stepState w (iterNext w (k * N + (N - 1) + 1) st) from rfl]
      have hs := step.2.1
      omega
    | succ r ihr =>
      intro hrN
      obtain ⟨q1, q2, q3, q4, q5, q6, _⟩ := ihr (by omega)
      have hidx : ((k + 1) * N + (r + 1) : Nat) = (k + 1) * N + r + 1 := rfl
      rw [hidx]
      have hcr : ((r : Int) + 1) ≠ (N : Int) := by omega
      have step := c1_step_stay w st q1 q2 q3 q4 q5 q6 hscenes hord hmem hkL hcr
      refine ⟨step.1, ?_, step.2.2.1, step.2.2.2.1, step.2.2.2.2.1,
        step.2.2.2.2.2.1, step.2.2.2.2.2.2⟩
      rw [show iterNext w ((k + 1) * N + r + 1 + 1) st =
        stepState w (iterNext w ((k + 1) * N + r + 1) st) from rfl]
      have hs := step.2.1
      omega

/-- C1: starting from `reset()`, with a positive integer period `N`, at
least two scenes and an unbounded budget, slot `k` of the scene permutation
serves exactly the `N` consecutive calls numbered `k*N + 1 … k*N + N`
(each of which returns a task), and the permutation drawn at reset stays
untouched throughout all `N * len(scenes)` calls — it is reshuffled only
after all of them have been drawn. -/
theorem scene_period_slots (w : World) (st0 : SamplerState) (N L : Nat)
    (hN : 0 < N) (hL : 2 ≤ L) (hlen : st0.scenes.length = L)
    (hp : st0.scenePeriod = .pyInt (N : Int)) (hmax : st0.resetTasks = none) :
    ∀ k r, k < L → r < N →
      (iterNext w (k * N + r + 1) (resetSampler st0)).sceneId = k ∧
      (iterNext w (k * N + r + 1) (resetSampler st0)).sceneOrder =
        (resetSampler st0).sceneOrder ∧
      ∃ task,
        (next_task w false (iterNext w (k * N + r) (resetSampler st0))).2.2 =
          .ok (some task) := by
  have hsc : (resetSampler st0).scenes = st0.scenes := by simp [resetSampler]
  have hper : (resetSampler st0).scenePeriod = .pyInt (N : Int) := by
    simpa [resetSampler] using hp
  have hordlen : (resetSampler st0).sceneOrder.length = L := by
    simp [resetSampler, shuffle_length, hlen]
  have hordmem : ∀ x ∈ (resetSampler st0).sceneOrder, x < L := by
    intro x hx
    simp only [resetSampler] at hx
    have hx2 := shuffle_mem hx
    rw [List.mem_range, hlen] at hx2
    exact hx2
  have aux := c1_aux w (resetSampler st0) N L hN hL (by rw [hsc]; exact hlen)
    hper rfl rfl hordlen hordmem (by simpa [resetSampler] using hmax)
  intro k r hk hr
  obtain ⟨a1, a2, a3, a4, a5, a6, a7⟩ := aux k hk r hr
  exact ⟨a1, a3, a7⟩

/-- C1 witness: period 1 over two scenes; the second call serves slot 1
with the reset permutation intact. -/
theorem scene_period_slots_witness :
    (iterNext wEx (1 * 1 + 0 + 1) (resetSampler periodSt)).sceneId = 1 ∧
    (iterNext wEx (1 * 1 + 0 + 1) (resetSampler periodSt)).sceneOrder =
      (resetSampler periodSt).sceneOrder ∧
    ∃ task,
      (next_task wEx false (iterNext wEx (1 * 1 + 0) (resetSampler periodSt))).2.2 =
        .ok (some task) :=
  scene_period_slots wEx periodSt 1 2 (by decide) (by decide) (by decide)
    (by decide) (by decide) 1 0 (by decide) (by decide)

end AllenAct
